import Mathlib

/-!
Shallow embedding of the LinkedIn-Insights backend core: the Redis cache
wrapper (app/core/cache.py), the entity rows and their `to_dict`
serializations (app/models/page.py, app/models/post.py, models/employee.py),
the fetch-and-store sync pipeline of the pages API (app/api/v1/pages.py),
the pagination metadata of the listing endpoints (pages.py, posts.py), the
compare-pages endpoint (app/api/v1/ai_summary.py) and the AI summary
formatter (app/services/ai_service.py).

Conventions of the embedding:
- Python `None`-able values are `Option`; a Python dict `d.get(k)` on a
  fixed-key normalized record is the corresponding `Option` field, and
  `d.get(k, default)` is `Option.getD`.
- Timestamps are abstract `Nat` clock values; `datetime.now()` is an
  explicit `now` parameter threaded through the pipeline.
- The external collaborators (LinkedIn fetcher, S3 uploader, wall clock)
  are oracles collected in an `Env` record; a pipeline run consults them
  as pure functions, which models one run of the async code in which each
  upstream call is deterministic.
- The relational store is a record of lists of rows plus the autoincrement
  counters; ORM in-place row updates are modelled by mapping over the list.
-/

/-- Python truthiness-based `a or b` on two optional strings, as in
`self.profile_picture_s3_url or self.profile_picture_url`: `None` and the
empty string are falsy, anything else is returned as is. -/
def pyOrStr (a b : Option String) : Option String :=
  match a with
  | some s => if s = "" then b else some s
  | none => b

/-- Python f-string rendering of an optional string: `None` prints as
the four characters of the word None. -/
def pyStr (o : Option String) : String :=
  match o with
  | some s => s
  | none => "None"

/-- sub occurs somewhere inside s (substring test on the character lists). -/
def strContains (s sub : String) : Bool :=
  decide (sub.data <:+: s.data)

/-! ## Key-Value cache: app/core/cache.py, class RedisClient -/

/-- Backing Redis database contents: key to serialized-string entries.
TTL-based expiry is wall-clock behaviour and is not modelled; an entry is
present until deleted. -/
abbrev RedisDb := List (String × String)

/-- Wrapper state of `RedisClient`: `client = none` models
`self._client is None`, the state `initialize` leaves the wrapper in when
the backing store is unreachable at connection time. -/
structure RedisClient where
  client : Option RedisDb
deriving DecidableEq, Repr

/-- `RedisClient.cache_key`: `prefix:arg1:arg2:...`. -/
def RedisClient.cache_key (pre : String) (args : List String) : String :=
  pre ++ ":" ++ String.intercalate ":" args

/-- Raw store read used by `get`. -/
def RedisDb.lookup (db : RedisDb) (key : String) : Option String :=
  (db.find? (fun kv => kv.1 == key)).map (fun kv => kv.2)

/-- `RedisClient.get`: `None` when the client is absent; otherwise reads the
key and returns the value only when it is truthy (`if value:`). -/
def RedisClient.get (r : RedisClient) (key : String) : Option String :=
  match r.client with
  | none => none
  | some db =>
    match db.lookup key with
    | some v => if v = "" then none else some v
    | none => none

/-- `RedisClient.set`: returns `false` (and leaves everything unchanged)
when the client is absent; otherwise overwrites the key and returns
`true`. The `ttl` argument is accepted as in `setex` but expiry itself is
not modelled. -/
def RedisClient.set (r : RedisClient) (key value : String) (ttl : Nat) : RedisClient × Bool :=
  match r.client with
  | none => (r, false)
  | some db =>
    (⟨some ((db.filter (fun kv => kv.1 != key)) ++ [(key, value)])⟩, true)

/-- `RedisClient.delete`: `false` without change when the client is absent,
otherwise removes the key and returns `true`. -/
def RedisClient.delete (r : RedisClient) (key : String) : RedisClient × Bool :=
  match r.client with
  | none => (r, false)
  | some db =>
    (⟨some (db.filter (fun kv => kv.1 != key))⟩, true)

/-- `RedisClient.clear_pattern` at the `refresh_page` call site, where the
pattern is `*` ++ pid ++ `*`: Redis `KEYS` glob with a leading and trailing
star deletes every key containing pid as a substring (assuming pid itself
holds no glob metacharacters). Returns the number removed; `0` without
change when the client is absent. -/
def RedisClient.clear_pattern_star (r : RedisClient) (pid : String) : RedisClient × Nat :=
  match r.client with
  | none => (r, 0)
  | some db =>
    let kept := db.filter (fun kv => !(strContains kv.1 pid))
    (⟨some kept⟩, db.length - kept.length)

/-! ## Entity rows: app/models/page.py, post.py, models/employee.py -/

/-- Row of the `pages` table. `id` is the autoincrement key; timestamps are
abstract clock values. The `updated_at` ORM on-update trigger is wall-clock
behaviour and is not modelled: the field keeps whatever value it holds. -/
structure Page where
  id : Nat
  page_id : String
  linkedin_id : Option String
  name : Option String
  url : Option String
  profile_picture_url : Option String
  profile_picture_s3_url : Option String
  description : Option String
  tagline : Option String
  website : Option String
  industry : Option String
  company_size : Option String
  headquarters : Option String
  founded_year : Option Int
  company_type : Option String
  follower_count : Int
  employee_count : Int
  specialties : Option (List String)
  locations : Option (List String)
  created_at : Option Nat
  updated_at : Option Nat
  last_scraped_at : Option Nat
deriving DecidableEq, Repr

/-- Row of the `posts` table; `page_id` is the owning page row id. -/
structure Post where
  id : Nat
  post_id : Option String
  page_id : Nat
  text : Option String
  content_type : Option String
  media_url : Option String
  media_s3_url : Option String
  media_type : Option String
  like_count : Int
  comment_count : Int
  share_count : Int
  view_count : Int
  posted_at : Option Nat
  author_name : Option String
  author_title : Option String
  hashtags : Option (List String)
  mentions : Option (List String)
  created_at : Option Nat
  updated_at : Option Nat
deriving DecidableEq, Repr

/-- Row of the `employees` table; `page_id` is the owning page row id. -/
structure Employee where
  id : Nat
  linkedin_id : Option String
  page_id : Nat
  first_name : Option String
  last_name : Option String
  full_name : Option String
  headline : Option String
  profile_url : Option String
  profile_picture_url : Option String
  profile_picture_s3_url : Option String
  current_title : Option String
  current_company : Option String
  location : Option String
  country : Option String
  industry : Option String
  connections_count : Option Int
  is_following : Bool
  is_follower : Bool
  is_employee : Bool
  experience_summary : Option (List String)
  education_summary : Option (List String)
  skills : Option (List String)
  created_at : Option Nat
  updated_at : Option Nat
deriving DecidableEq, Repr

/-! ## Outward-facing representations: the `to_dict` methods -/

/-- Shape of `Page.to_dict`. -/
structure PageDict where
  id : Nat
  page_id : String
  linkedin_id : Option String
  name : Option String
  url : Option String
  profile_picture_url : Option String
  description : Option String
  tagline : Option String
  website : Option String
  industry : Option String
  company_size : Option String
  headquarters : Option String
  founded_year : Option Int
  company_type : Option String
  follower_count : Int
  employee_count : Int
  specialties : Option (List String)
  locations : Option (List String)
  created_at : Option Nat
  updated_at : Option Nat
  last_scraped_at : Option Nat
deriving DecidableEq, Repr

/-- `Page.to_dict`: the exposed picture is
`self.profile_picture_s3_url or self.profile_picture_url`. -/
def Page.to_dict (p : Page) : PageDict :=
  { id := p.id
    page_id := p.page_id
    linkedin_id := p.linkedin_id
    name := p.name
    url := p.url
    profile_picture_url := pyOrStr p.profile_picture_s3_url p.profile_picture_url
    description := p.description
    tagline := p.tagline
    website := p.website
    industry := p.industry
    company_size := p.company_size
    headquarters := p.headquarters
    founded_year := p.founded_year
    company_type := p.company_type
    follower_count := p.follower_count
    employee_count := p.employee_count
    specialties := p.specialties
    locations := p.locations
    created_at := p.created_at
    updated_at := p.updated_at
    last_scraped_at := p.last_scraped_at }

/-- Shape of `Post.to_dict`. -/
structure PostDict where
  id : Nat
  post_id : Option String
  page_id : Nat
  text : Option String
  content_type : Option String
  media_url : Option String
  media_type : Option String
  like_count : Int
  comment_count : Int
  share_count : Int
  view_count : Int
  posted_at : Option Nat
  author_name : Option String
  author_title : Option String
  hashtags : Option (List String)
  mentions : Option (List String)
  created_at : Option Nat
  updated_at : Option Nat
deriving DecidableEq, Repr

/-- `Post.to_dict`: the exposed media url is
`self.media_s3_url or self.media_url`. -/
def Post.to_dict (p : Post) : PostDict :=
  { id := p.id
    post_id := p.post_id
    page_id := p.page_id
    text := p.text
    content_type := p.content_type
    media_url := pyOrStr p.media_s3_url p.media_url
    media_type := p.media_type
    like_count := p.like_count
    comment_count := p.comment_count
    share_count := p.share_count
    view_count := p.view_count
    posted_at := p.posted_at
    author_name := p.author_name
    author_title := p.author_title
    hashtags := p.hashtags
    mentions := p.mentions
    created_at := p.created_at
    updated_at := p.updated_at }

/-- Shape of `Employee.to_dict`. -/
structure EmployeeDict where
  id : Nat
  linkedin_id : Option String
  page_id : Nat
  first_name : Option String
  last_name : Option String
  full_name : Option String
  headline : Option String
  profile_url : Option String
  profile_picture_url : Option String
  current_title : Option String
  current_company : Option String
  location : Option String
  country : Option String
  industry : Option String
  connections_count : Option Int
  is_following : Bool
  is_follower : Bool
  is_employee : Bool
  skills : Option (List String)
  created_at : Option Nat
  updated_at : Option Nat
deriving DecidableEq, Repr

/-- `Employee.to_dict`: the exposed picture is
`self.profile_picture_s3_url or self.profile_picture_url`. -/
def Employee.to_dict (e : Employee) : EmployeeDict :=
  { id := e.id
    linkedin_id := e.linkedin_id
    page_id := e.page_id
    first_name := e.first_name
    last_name := e.last_name
    full_name := e.full_name
    headline := e.headline
    profile_url := e.profile_url
    profile_picture_url := pyOrStr e.profile_picture_s3_url e.profile_picture_url
    current_title := e.current_title
    current_company := e.current_company
    location := e.location
    country := e.country
    industry := e.industry
    connections_count := e.connections_count
    is_following := e.is_following
    is_follower := e.is_follower
    is_employee := e.is_employee
    skills := e.skills
    created_at := e.created_at
    updated_at := e.updated_at }

/-! ## Normalized upstream records: app/services/linkedin_service.py -/

/-- Normalized organization payload returned by
`LinkedInService.get_organization_by_vanity_name` (the key set built in
`_get_organization_details`). Every key is modelled as optional; the
falsy empty dict returned on a failed detail call is folded into the
absent case, as the pipeline treats `if not linkedin_data` as absent. -/
structure PageData where
  linkedin_id : Option String
  name : Option String
  page_id : Option String
  description : Option String
  website : Option String
  industry : Option String
  company_size : Option String
  headquarters : Option String
  founded_year : Option Int
  company_type : Option String
  specialties : Option (List String)
  locations : Option (List String)
  profile_picture_url : Option String
  follower_count : Option Int
  url : Option String
deriving DecidableEq, Repr

/-- Normalized post payload built by `LinkedInService._parse_post`. -/
structure PostData where
  post_id : Option String
  text : Option String
  content_type : Option String
  media_url : Option String
  media_type : Option String
  posted_at : Option Nat
  like_count : Option Int
  comment_count : Option Int
  share_count : Option Int
  hashtags : Option (List String)
  mentions : Option (List String)
deriving DecidableEq, Repr

/-- Normalized employee payload built by `LinkedInService._parse_employee`. -/
structure EmpData where
  linkedin_id : Option String
  first_name : Option String
  last_name : Option String
  headline : Option String
  profile_url : Option String
  profile_picture_url : Option String
  location : Option String
  industry : Option String
deriving DecidableEq, Repr

/-! ## External collaborators of one pipeline run -/

/-- Oracles for the external collaborators consulted by one run of the
fetch-and-store pipeline: the upstream fetcher, the S3 uploader of
`StorageService.upload_from_url` (keyed by source url and destination
folder), and the wall clock. -/
structure Env where
  fetchPage : String → Option PageData
  fetchPosts : Option String → List PostData
  fetchEmployees : Option String → List EmpData
  uploadFromUrl : String → String → Option String
  now : Nat

/-- `StorageService.clone_page_images`: `None` source short-circuits to
`None`, otherwise upload into folder `pages/` ++ page_id. -/
def cloneMediaPage (env : Env) (profile_picture_url : Option String) (page_id : String) : Option String :=
  match profile_picture_url with
  | none => none
  | some u => env.uploadFromUrl u ("pages/" ++ page_id)

/-- `StorageService.clone_post_media`: `None` source short-circuits to
`None`, otherwise upload into folder `pages/` ++ page_id ++ `/posts/` ++
post_id (an absent post id renders as the word None, as the f-string
does). -/
def cloneMediaPost (env : Env) (media_url : Option String) (page_id : String) (post_id : Option String) : Option String :=
  match media_url with
  | none => none
  | some u => env.uploadFromUrl u ("pages/" ++ page_id ++ "/posts/" ++ pyStr post_id)

/-! ## The entity store -/

/-- Durable relational state touched by the pages pipeline: the three row
lists plus the autoincrement counters. -/
structure Store where
  pages : List Page
  posts : List Post
  employees : List Employee
  nextPageId : Nat
  nextPostId : Nat
  nextEmployeeId : Nat
deriving DecidableEq, Repr

/-- Point lookup `select(Page).where(Page.page_id == page_id)` with
`scalar_one_or_none`, under the unique index on page_id (first match). -/
def Store.findPage (s : Store) (page_id : String) : Option Page :=
  s.pages.find? (fun p => p.page_id == page_id)

/-! ## Fetch-and-store pipeline: app/api/v1/pages.py -/

/-- One field of the merge loop
`for key, value in linkedin_data.items(): if hasattr(...) and value is not None: setattr(...)`:
a non-None incoming value overwrites, a None incoming value keeps the
existing one. -/
def mergeField (incoming existing : Option α) : Option α :=
  match incoming with
  | some v => some v
  | none => existing

/-- Merge loop of the update branch of `_fetch_and_store_page`, unrolled
over the fixed key set of the normalized organization record (every key of
which is a `Page` attribute, so the `hasattr` guard always holds). Note
that `page_id` and `follower_count` are non-optional columns, so a
non-None incoming value overwrites them directly. -/
def applyPageData (d : PageData) (p : Page) : Page :=
  { p with
    linkedin_id := mergeField d.linkedin_id p.linkedin_id
    name := mergeField d.name p.name
    page_id := match d.page_id with | some v => v | none => p.page_id
    description := mergeField d.description p.description
    website := mergeField d.website p.website
    industry := mergeField d.industry p.industry
    company_size := mergeField d.company_size p.company_size
    headquarters := mergeField d.headquarters p.headquarters
    founded_year := mergeField d.founded_year p.founded_year
    company_type := mergeField d.company_type p.company_type
    specialties := mergeField d.specialties p.specialties
    locations := mergeField d.locations p.locations
    profile_picture_url := mergeField d.profile_picture_url p.profile_picture_url
    follower_count := match d.follower_count with | some v => v | none => p.follower_count
    url := mergeField d.url p.url }

/-- Whole update branch of `_fetch_and_store_page` on the existing row:
the merge loop, then the unconditional
`existing_page.profile_picture_s3_url = s3_picture_url` (the fresh clone
result, possibly None) and `existing_page.last_scraped_at = datetime.now()`. -/
def mergeExisting (d : PageData) (s3_picture_url : Option String) (now : Nat) (p : Page) : Page :=
  { applyPageData d p with
    profile_picture_s3_url := s3_picture_url
    last_scraped_at := some now }

/-- Create branch of `_fetch_and_store_page`: the `Page(...)` constructor
call, with column defaults for the attributes not passed. -/
def newPageFromData (page_id : String) (d : PageData) (s3_picture_url : Option String) (now : Nat) (rowId : Nat) : Page :=
  { id := rowId
    page_id := page_id
    linkedin_id := d.linkedin_id
    name := d.name
    url := d.url
    profile_picture_url := d.profile_picture_url
    profile_picture_s3_url := s3_picture_url
    description := d.description
    tagline := none
    website := d.website
    industry := d.industry
    company_size := d.company_size
    headquarters := d.headquarters
    founded_year := d.founded_year
    company_type := d.company_type
    follower_count := d.follower_count.getD 0
    employee_count := 0
    specialties := d.specialties
    locations := d.locations
    created_at := some now
    updated_at := none
    last_scraped_at := some now }

/-- ORM in-place update of a loaded row, seen from the row list: the row
with the same primary key takes the new value. -/
def updateRow (rows : List Page) (rowId : Nat) (p : Page) : List Page :=
  rows.map (fun q => if q.id == rowId then p else q)

/-- `Post(...)` constructor call inside `_fetch_and_store_posts`. -/
def mkPost (d : PostData) (pageRowId : Nat) (s3_media_url : Option String) (now : Nat) (rowId : Nat) : Post :=
  { id := rowId
    post_id := d.post_id
    page_id := pageRowId
    text := d.text
    content_type := d.content_type
    media_url := d.media_url
    media_s3_url := s3_media_url
    media_type := d.media_type
    like_count := d.like_count.getD 0
    comment_count := d.comment_count.getD 0
    share_count := d.share_count.getD 0
    view_count := 0
    posted_at := d.posted_at
    author_name := none
    author_title := none
    hashtags := d.hashtags
    mentions := d.mentions
    created_at := some now
    updated_at := none }

/-- `Employee(...)` constructor call inside `_fetch_and_store_employees`;
`full_name` is the f-string of the two name parts, stripped. -/
def mkEmployee (d : EmpData) (pageRowId : Nat) (now : Nat) (rowId : Nat) : Employee :=
  { id := rowId
    linkedin_id := d.linkedin_id
    page_id := pageRowId
    first_name := d.first_name
    last_name := d.last_name
    full_name := some (((d.first_name.getD "") ++ " " ++ (d.last_name.getD "")).trim)
    headline := d.headline
    profile_url := d.profile_url
    profile_picture_url := d.profile_picture_url
    profile_picture_s3_url := none
    current_title := none
    current_company := none
    location := d.location
    country := none
    industry := d.industry
    connections_count := none
    is_following := false
    is_follower := false
    is_employee := true
    experience_summary := none
    education_summary := none
    skills := none
    created_at := some now
    updated_at := none }

/-- `_fetch_and_store_posts`: fetch up to 25 posts for the page, clone
each media best-effort, and add a fresh `Post` row per payload. There is
no existence check: every payload becomes a new row. -/
def fetchAndStorePosts (env : Env) (page : Page) (s : Store) : Store :=
  (env.fetchPosts page.linkedin_id).foldl
    (fun st d =>
      let s3 := cloneMediaPost env d.media_url page.page_id d.post_id
      { st with
        posts := st.posts ++ [mkPost d page.id s3 env.now st.nextPostId]
        nextPostId := st.nextPostId + 1 })
    s

/-- `_fetch_and_store_employees`: fetch up to 50 employees for the page
and add a fresh `Employee` row per payload, with no existence check. -/
def fetchAndStoreEmployees (env : Env) (page : Page) (s : Store) : Store :=
  (env.fetchEmployees page.linkedin_id).foldl
    (fun st d =>
      { st with
        employees := st.employees ++ [mkEmployee d page.id env.now st.nextEmployeeId]
        nextEmployeeId := st.nextEmployeeId + 1 })
    s

/-- `_fetch_and_store_page`: look up the page by slug; an existing page
without `force_update` is returned as is; otherwise fetch upstream (absent
data short-circuits to not-found with no store change), clone the profile
picture, then either merge onto the existing row, or create the row and
cascade into the first batch of posts and employees. Returns the new
store and the resulting page (`none` models returning Python None). -/
def fetchAndStorePage (env : Env) (page_id : String) (force_update : Bool) (s : Store) : Store × Option Page :=
  match s.findPage page_id with
  | some existing =>
    if !force_update then (s, some existing)
    else
      match env.fetchPage page_id with
      | none => (s, none)
      | some d =>
        let s3 := cloneMediaPage env d.profile_picture_url page_id
        let updated := mergeExisting d s3 env.now existing
        ({ s with pages := updateRow s.pages existing.id updated }, some updated)
  | none =>
    match env.fetchPage page_id with
    | none => (s, none)
    | some d =>
      let s3 := cloneMediaPage env d.profile_picture_url page_id
      let page := newPageFromData page_id d s3 env.now s.nextPageId
      let s1 := { s with pages := s.pages ++ [page], nextPageId := s.nextPageId + 1 }
      let s2 := fetchAndStorePosts env page s1
      let s3s := fetchAndStoreEmployees env page s2
      (s3s, some page)

/-- `refresh_page` endpoint: clear every cache key matching
`*` ++ page_id ++ `*`, then run the pipeline with `force_update=True`; an
absent result is surfaced as HTTP 404 (the returned `Option` is `none`). -/
def refreshPage (env : Env) (page_id : String) (cache : RedisClient) (s : Store) : RedisClient × Store × Option Page :=
  let c1 := (cache.clear_pattern_star page_id).1
  let (s1, page) := fetchAndStorePage env page_id true s
  (c1, s1, page)

/-! ## Pagination metadata: get_pages (pages.py) and get_posts (posts.py) -/

/-- Pagination fields shared by the listing responses. -/
structure PageListMeta where
  total : Nat
  page : Nat
  page_size : Nat
  total_pages : Nat
  has_next : Bool
  has_prev : Bool
deriving DecidableEq, Repr

/-- Pagination arithmetic of the listing endpoints:
`total_pages = (total + page_size - 1) // page_size`,
`has_next = page < total_pages`, `has_prev = page > 1`. -/
def paginationMeta (total page page_size : Nat) : PageListMeta :=
  let total_pages := (total + page_size - 1) / page_size
  { total := total
    page := page
    page_size := page_size
    total_pages := total_pages
    has_next := decide (page < total_pages)
    has_prev := decide (1 < page) }

/-! ## Compare endpoint: app/api/v1/ai_summary.py, compare_pages -/

/-- Outcome of the compare endpoint: an HTTP 400, an HTTP 404, or the
comparison built from the resolved page dicts (the AI text generation
itself is external and always yields a response, falling back to a basic
comparison on error, so success carries the resolved pages). -/
inductive CompareOutcome where
  | validationFailure (detail : String)
  | notFound (detail : String)
  | ok (pages_data : List PageDict)
deriving DecidableEq, Repr

/-- Lookup loop of `compare_pages`: pages that resolve contribute their
`to_dict`, in request order; the rest are skipped. -/
def resolvePages (page_ids : List String) (s : Store) : List PageDict :=
  page_ids.filterMap (fun pid => (s.findPage pid).map Page.to_dict)

/-- `compare_pages`: fewer than 2 ids or more than 5 ids raise HTTP 400
before any lookup; then pages are resolved and fewer than 2 hits raise
HTTP 404; otherwise the comparison is generated. -/
def comparePages (page_ids : List String) (s : Store) : CompareOutcome :=
  if page_ids.length < 2 then
    .validationFailure "At least 2 page IDs required for comparison"
  else if page_ids.length > 5 then
    .validationFailure "Maximum 5 pages can be compared at once"
  else
    let pages_data := resolvePages page_ids s
    if pages_data.length < 2 then
      .notFound "Not enough pages found for comparison"
    else
      .ok pages_data

/-! ## AI summary formatting: app/services/ai_service.py -/

/-- `follower_analysis` block of the parsed model reply that
`_format_summary_response` reads with chained `.get` calls. -/
structure FollowerAnalysisIn where
  growth_trend : Option String
  engagement_rate : Option Rat
  top_industries : Option (List String)
  top_locations : Option (List String)
deriving DecidableEq, Repr

/-- `content_analysis` block of the parsed model reply. -/
structure ContentAnalysisIn where
  posting_frequency : Option String
  best_performing_topics : Option (List String)
  best_posting_times : Option (List String)
  content_mix_recommendation : Option String
deriving DecidableEq, Repr

/-- Fields of the parsed JSON reply of the narrative model that
`_format_summary_response` consumes; each is optional since the reply is
arbitrary JSON read through `.get`. Insight items are passed through
unexamined and are kept as opaque strings. -/
structure AIAnalysis where
  summary : Option String
  page_type : Option String
  industry_classification : Option String
  key_insights : Option (List String)
  follower_analysis : Option FollowerAnalysisIn
  content_analysis : Option ContentAnalysisIn
  recommendations : Option (List String)
deriving DecidableEq, Repr

/-- `follower_analysis` block of the response structure. -/
structure FollowerAnalysisOut where
  total_count : Int
  growth_trend : Option String
  engagement_rate : Option Rat
  top_industries : List String
  top_locations : List String
deriving DecidableEq, Repr

/-- `content_analysis` block of the response structure. -/
structure ContentAnalysisOut where
  total_posts : Nat
  avg_likes : Int
  avg_comments : Int
  avg_shares : Int
  top_performing_topics : List String
  posting_frequency : Option String
  best_posting_times : List String
deriving DecidableEq, Repr

/-- Response structure assembled by `_format_summary_response`. -/
structure AISummaryOut where
  page_id : String
  page_name : Option String
  summary : String
  page_type : String
  industry_classification : String
  key_insights : List String
  follower_analysis : FollowerAnalysisOut
  content_analysis : ContentAnalysisOut
  recommendations : List String
  generated_at : Nat
deriving DecidableEq, Repr

/-- `AIService._format_summary_response`: shapes a successful model reply
into the response structure. The page data given to it is a `Page.to_dict`
result, which carries no `posts` key, so `len(page_data.get("posts", []))`
is the length of the empty default; the three engagement averages of
`content_analysis` are written as literal zeros. -/
def formatSummaryResponse (page_data : PageDict) (analysis : AIAnalysis) (now : Nat) : AISummaryOut :=
  { page_id := page_data.page_id
    page_name := page_data.name
    summary := analysis.summary.getD ""
    page_type := analysis.page_type.getD "unknown"
    industry_classification := analysis.industry_classification.getD (page_data.industry.getD "")
    key_insights := analysis.key_insights.getD []
    follower_analysis :=
      { total_count := page_data.follower_count
        growth_trend := analysis.follower_analysis.bind (fun fa => fa.growth_trend)
        engagement_rate := analysis.follower_analysis.bind (fun fa => fa.engagement_rate)
        top_industries := (analysis.follower_analysis.bind (fun fa => fa.top_industries)).getD []
        top_locations := (analysis.follower_analysis.bind (fun fa => fa.top_locations)).getD [] }
    content_analysis :=
      { total_posts := ([] : List PostDict).length
        avg_likes := 0
        avg_comments := 0
        avg_shares := 0
        top_performing_topics := (analysis.content_analysis.bind (fun ca => ca.best_performing_topics)).getD []
        posting_frequency := analysis.content_analysis.bind (fun ca => ca.posting_frequency)
        best_posting_times := (analysis.content_analysis.bind (fun ca => ca.best_posting_times)).getD [] }
    recommendations := analysis.recommendations.getD []
    generated_at := now }

/-! ## Shared helper lemmas -/

theorem mergeField_absorb (a b : Option α) : mergeField a (mergeField a b) = mergeField a b := by
  cases a <;> rfl

theorem mergeField_self (a : Option α) : mergeField a a = a := by
  cases a <;> rfl

/-! ## C8: cache degrades when the backing store is unreachable -/

/-- C8: with the backing key-value store unreachable (the wrapper holds no
client), `get` returns absent, and `set` and `delete` return a failure
flag with the wrapper unchanged; all three are total functions, so no
error is raised and every caller can fall back to fetch-on-miss. -/
theorem cache_unreachable_degrades (key value : String) (ttl : Nat) :
    RedisClient.get ⟨none⟩ key = none
    ∧ RedisClient.set ⟨none⟩ key value ttl = (⟨none⟩, false)
    ∧ RedisClient.delete ⟨none⟩ key = (⟨none⟩, false) :=
  ⟨rfl, rfl, rfl⟩

/-! ## C10: successful AI summaries report zero engagement averages -/

/-- C10: on the successful (non-fallback) path, the formatted summary
response carries `avg_likes = avg_comments = avg_shares = 0` in its
`content_analysis`, whatever page data and model reply were supplied. -/
theorem ai_summary_content_averages_zero (pd : PageDict) (a : AIAnalysis) (now : Nat) :
    (formatSummaryResponse pd a now).content_analysis.avg_likes = 0
    ∧ (formatSummaryResponse pd a now).content_analysis.avg_comments = 0
    ∧ (formatSummaryResponse pd a now).content_analysis.avg_shares = 0 :=
  ⟨rfl, rfl, rfl⟩

/-! ## C6: pagination arithmetic -/

/-- C6: for page size at least 1, the listing metadata satisfies
`total_pages = ceil(total / page_size)` (stated against the rational
ceiling), `has_next` iff the requested page is below `total_pages`, and
`has_prev` iff the requested page is above 1. -/
theorem pagination_meta_spec (total page p : Nat) (hp : 1 ≤ p) :
    (paginationMeta total page p).total_pages = ⌈(total : ℚ) / (p : ℚ)⌉₊
    ∧ ((paginationMeta total page p).has_next = true ↔ page < (paginationMeta total page p).total_pages)
    ∧ ((paginationMeta total page p).has_prev = true ↔ 1 < page) := by
  refine ⟨?_, by simp [paginationMeta], by simp [paginationMeta]⟩
  show (total + p - 1) / p = ⌈(total : ℚ) / (p : ℚ)⌉₊
  have hp0 : 0 < p := hp
  have hpq : (0:ℚ) < (p:ℚ) := by exact_mod_cast hp0
  rcases Nat.eq_zero_or_pos total with h0 | h1
  · subst h0
    rw [Nat.div_eq_of_lt (by omega)]
    simp
  · have htp1 : 1 ≤ (total + p - 1) / p := by
      rw [Nat.one_le_div_iff hp0]; omega
    have hdm := Nat.div_add_mod (total + p - 1) p
    have hmlt : (total + p - 1) % p < p := Nat.mod_lt _ hp0
    set tp := (total + p - 1) / p with htp
    have hub : total ≤ tp * p := by
      rw [Nat.mul_comm]
      omega
    have hlb : (tp - 1) * p < total := by
      have hle : p * tp ≤ total + p - 1 := by omega
      have h2 : (tp - 1) * p = tp * p - p := by
        rw [Nat.sub_mul, Nat.one_mul]
      rw [h2, Nat.mul_comm]
      omega
    symm
    rw [Nat.ceil_eq_iff (by omega)]
    refine ⟨?_, ?_⟩
    · rw [lt_div_iff₀ hpq]
      exact_mod_cast hlb
    · rw [div_le_iff₀ hpq]
      exact_mod_cast hub

/-- Witness for C6 at total 7, page 2, page size 3: four total pages,
a next page and a previous page both available. -/
theorem pagination_meta_spec_witness :
    ((paginationMeta 7 2 3).total_pages = ⌈(7 : ℚ) / (3 : ℚ)⌉₊
    ∧ ((paginationMeta 7 2 3).has_next = true ↔ 2 < (paginationMeta 7 2 3).total_pages)
    ∧ ((paginationMeta 7 2 3).has_prev = true ↔ 1 < 2))
    ∧ (paginationMeta 7 2 3).total_pages = 3
    ∧ (paginationMeta 7 2 3).has_next = true
    ∧ (paginationMeta 7 2 3).has_prev = true :=
  ⟨pagination_meta_spec 7 2 3 (by decide), by decide, by decide, by decide⟩

/-! ## C7: compare-pages bounds -/

/-- C7: the compare endpoint raises a validation-class failure for fewer
than 2 or more than 5 identifiers regardless of the store contents (the
bound check precedes any lookup), a not-found-class failure when the
identifier count is in bounds but fewer than 2 identifiers resolve, and
succeeds when the count is in bounds and at least 2 resolve. -/
theorem compare_pages_bounds (page_ids : List String) (s : Store) :
    (page_ids.length < 2 ∨ page_ids.length > 5 →
      ∃ d, comparePages page_ids s = .validationFailure d)
    ∧ (2 ≤ page_ids.length → page_ids.length ≤ 5 → (resolvePages page_ids s).length < 2 →
      ∃ d, comparePages page_ids s = .notFound d)
    ∧ (2 ≤ page_ids.length → page_ids.length ≤ 5 → 2 ≤ (resolvePages page_ids s).length →
      comparePages page_ids s = .ok (resolvePages page_ids s)) := by
  unfold comparePages
  refine ⟨?_, ?_, ?_⟩
  · intro h
    rcases h with h | h
    · rw [if_pos h]; exact ⟨_, rfl⟩
    · rw [if_neg (by omega), if_pos h]; exact ⟨_, rfl⟩
  · intro h2 h5 hr
    rw [if_neg (by omega), if_neg (by omega)]
    simp only [if_pos hr]
    exact ⟨_, rfl⟩
  · intro h2 h5 hr
    rw [if_neg (by omega), if_neg (by omega)]
    simp only [if_neg (by omega : ¬ (resolvePages page_ids s).length < 2)]

/-- Sample store with two resolvable pages used by witnesses. -/
def samplePage (rowId : Nat) (pid : String) : Page :=
  { id := rowId
    page_id := pid
    linkedin_id := none
    name := some pid
    url := none
    profile_picture_url := none
    profile_picture_s3_url := none
    description := none
    tagline := none
    website := none
    industry := none
    company_size := none
    headquarters := none
    founded_year := none
    company_type := none
    follower_count := 0
    employee_count := 0
    specialties := none
    locations := none
    created_at := none
    updated_at := none
    last_scraped_at := none }

/-- Store holding pages acme (row 0) and globex (row 1). -/
def sampleStore : Store :=
  { pages := [samplePage 0 "acme", samplePage 1 "globex"]
    posts := []
    employees := []
    nextPageId := 2
    nextPostId := 0
    nextEmployeeId := 0 }

/-- Witness for C7: one identifier is a validation failure, six are a
validation failure, and two resolvable identifiers against the sample
store succeed. -/
theorem compare_pages_bounds_witness :
    (∃ d, comparePages ["acme"] sampleStore = .validationFailure d)
    ∧ (∃ d, comparePages ["a", "b", "c", "d", "e", "f"] sampleStore = .validationFailure d)
    ∧ comparePages ["acme", "globex"] sampleStore
        = .ok (resolvePages ["acme", "globex"] sampleStore) :=
  ⟨(compare_pages_bounds ["acme"] sampleStore).1 (Or.inl (by decide)),
   (compare_pages_bounds ["a", "b", "c", "d", "e", "f"] sampleStore).1 (Or.inr (by decide)),
   (compare_pages_bounds ["acme", "globex"] sampleStore).2.2 (by decide) (by decide) (by decide)⟩

/-! ## C5: cloned media URL precedence in to_dict -/

/-- Page whose cloned picture URL is non-null but empty while an original
URL is present. -/
def pageEmptyCloned : Page :=
  { samplePage 0 "acme" with
    profile_picture_s3_url := some ""
    profile_picture_url := some "https://cdn.example/orig.png" }

/-- Counterexample to C5 as stated: this page's cloned URL is non-null
(it is the empty string), yet `to_dict` exposes the original URL, because
the Python `or` treats the empty string as falsy, not only None. -/
theorem cloned_media_precedence_counterexample :
    pageEmptyCloned.profile_picture_s3_url = some ""
    ∧ (pageEmptyCloned.to_dict).profile_picture_url = some "https://cdn.example/orig.png"
    ∧ (pageEmptyCloned.to_dict).profile_picture_url ≠ pageEmptyCloned.profile_picture_s3_url := by
  refine ⟨rfl, rfl, by decide⟩

/-- C5 (amended): for each of Page, Post and Employee, whenever the cloned
media URL is non-null and non-empty, the `to_dict` representation exposes
the cloned URL in place of the original. -/
theorem cloned_media_precedence (p : Page) (q : Post) (e : Employee) (u v w : String)
    (hp : p.profile_picture_s3_url = some u) (hu : u ≠ "")
    (hq : q.media_s3_url = some v) (hv : v ≠ "")
    (he : e.profile_picture_s3_url = some w) (hw : w ≠ "") :
    (p.to_dict).profile_picture_url = some u
    ∧ (q.to_dict).media_url = some v
    ∧ (e.to_dict).profile_picture_url = some w := by
  refine ⟨?_, ?_, ?_⟩
  · simp [Page.to_dict, pyOrStr, hp, hu]
  · simp [Post.to_dict, pyOrStr, hq, hv]
  · simp [Employee.to_dict, pyOrStr, he, hw]

/-- Post with both media URLs set, for the C5 witness. -/
def samplePost : Post :=
  { id := 0
    post_id := some "p1"
    page_id := 0
    text := some "hello"
    content_type := some "text"
    media_url := some "https://cdn.example/m.png"
    media_s3_url := some "https://s3.example/m.png"
    media_type := some "image"
    like_count := 1
    comment_count := 2
    share_count := 3
    view_count := 0
    posted_at := some 10
    author_name := none
    author_title := none
    hashtags := none
    mentions := none
    created_at := some 11
    updated_at := none }

/-- Employee with both picture URLs set, for the C5 witness. -/
def sampleEmployee : Employee :=
  { id := 0
    linkedin_id := some "e1"
    page_id := 0
    first_name := some "Ada"
    last_name := some "L"
    full_name := some "Ada L"
    headline := none
    profile_url := none
    profile_picture_url := some "https://cdn.example/e.png"
    profile_picture_s3_url := some "https://s3.example/e.png"
    current_title := none
    current_company := none
    location := none
    country := none
    industry := none
    connections_count := none
    is_following := false
    is_follower := true
    is_employee := true
    experience_summary := none
    education_summary := none
    skills := none
    created_at := none
    updated_at := none }

/-- Page with both picture URLs set, for the C5 witness. -/
def samplePageBothUrls : Page :=
  { samplePage 0 "acme" with
    profile_picture_url := some "https://cdn.example/p.png"
    profile_picture_s3_url := some "https://s3.example/p.png" }

/-- Witness for C5 (amended) on concrete entities holding both an original
and a non-empty cloned URL: the cloned ones are exposed. -/
theorem cloned_media_precedence_witness :
    (samplePageBothUrls.to_dict).profile_picture_url = some "https://s3.example/p.png"
    ∧ (samplePost.to_dict).media_url = some "https://s3.example/m.png"
    ∧ (sampleEmployee.to_dict).profile_picture_url = some "https://s3.example/e.png" :=
  cloned_media_precedence samplePageBothUrls samplePost sampleEmployee
    "https://s3.example/p.png" "https://s3.example/m.png" "https://s3.example/e.png"
    rfl (by decide) rfl (by decide) rfl (by decide)

/-! ## C3: field semantics of the merge-update branch -/

/-- Normalized record with every key None, as a provider payload carrying
no usable fields. -/
def pageDataAllNone : PageData :=
  { linkedin_id := none
    name := none
    page_id := none
    description := none
    website := none
    industry := none
    company_size := none
    headquarters := none
    founded_year := none
    company_type := none
    specialties := none
    locations := none
    profile_picture_url := none
    follower_count := none
    url := none }

/-- Store holding one already-synced acme page with a cloned picture URL. -/
def storeWithClonedPicture : Store :=
  { pages := [{ samplePage 0 "acme" with
                profile_picture_s3_url := some "https://s3.example/acme/profile_picture.jpg" }]
    posts := []
    employees := []
    nextPageId := 1
    nextPostId := 0
    nextEmployeeId := 0 }

/-- Environment whose upstream returns the all-None record for acme (so
the picture clone yields None) and nothing else. -/
def envAllNone : Env :=
  { fetchPage := fun pid => if pid = "acme" then some pageDataAllNone else none
    fetchPosts := fun _ => []
    fetchEmployees := fun _ => []
    uploadFromUrl := fun _ _ => none
    now := 5 }

/-- Counterexample to C3 as stated: a forced refresh of the stored acme
page against an incoming record with a None picture URL runs the merge
branch and overwrites the stored cloned-picture field with null, so a
stored field IS overwritten with null by a merge. -/
theorem merge_no_null_overwrite_counterexample :
    ((storeWithClonedPicture.findPage "acme").map (fun p => p.profile_picture_s3_url))
      = some (some "https://s3.example/acme/profile_picture.jpg")
    ∧ ((((fetchAndStorePage envAllNone "acme" true storeWithClonedPicture).1).findPage "acme").map
        (fun p => p.profile_picture_s3_url))
      = some none := by
  refine ⟨rfl, by decide⟩

/-- C3 (amended): in the merge-update branch, for every field of the
incoming normalized record a non-null incoming value overwrites the
stored value and a null incoming value leaves the stored value unchanged;
the two fields written outside the merge loop are the exceptions: the
cloned-picture field is unconditionally replaced by the fresh clone
result (possibly null), and `last_scraped_at` is set to the sync time. -/
theorem merge_field_semantics (d : PageData) (p : Page) (s3 : Option String) (now : Nat) :
    ((∀ v, d.linkedin_id = some v → (mergeExisting d s3 now p).linkedin_id = some v)
      ∧ (d.linkedin_id = none → (mergeExisting d s3 now p).linkedin_id = p.linkedin_id))
    ∧ ((∀ v, d.name = some v → (mergeExisting d s3 now p).name = some v)
      ∧ (d.name = none → (mergeExisting d s3 now p).name = p.name))
    ∧ ((∀ v, d.page_id = some v → (mergeExisting d s3 now p).page_id = v)
      ∧ (d.page_id = none → (mergeExisting d s3 now p).page_id = p.page_id))
    ∧ ((∀ v, d.description = some v → (mergeExisting d s3 now p).description = some v)
      ∧ (d.description = none → (mergeExisting d s3 now p).description = p.description))
    ∧ ((∀ v, d.website = some v → (mergeExisting d s3 now p).website = some v)
      ∧ (d.website = none → (mergeExisting d s3 now p).website = p.website))
    ∧ ((∀ v, d.industry = some v → (mergeExisting d s3 now p).industry = some v)
      ∧ (d.industry = none → (mergeExisting d s3 now p).industry = p.industry))
    ∧ ((∀ v, d.company_size = some v → (mergeExisting d s3 now p).company_size = some v)
      ∧ (d.company_size = none → (mergeExisting d s3 now p).company_size = p.company_size))
    ∧ ((∀ v, d.headquarters = some v → (mergeExisting d s3 now p).headquarters = some v)
      ∧ (d.headquarters = none → (mergeExisting d s3 now p).headquarters = p.headquarters))
    ∧ ((∀ v, d.founded_year = some v → (mergeExisting d s3 now p).founded_year = some v)
      ∧ (d.founded_year = none → (mergeExisting d s3 now p).founded_year = p.founded_year))
    ∧ ((∀ v, d.company_type = some v → (mergeExisting d s3 now p).company_type = some v)
      ∧ (d.company_type = none → (mergeExisting d s3 now p).company_type = p.company_type))
    ∧ ((∀ v, d.specialties = some v → (mergeExisting d s3 now p).specialties = some v)
      ∧ (d.specialties = none → (mergeExisting d s3 now p).specialties = p.specialties))
    ∧ ((∀ v, d.locations = some v → (mergeExisting d s3 now p).locations = some v)
      ∧ (d.locations = none → (mergeExisting d s3 now p).locations = p.locations))
    ∧ ((∀ v, d.profile_picture_url = some v → (mergeExisting d s3 now p).profile_picture_url = some v)
      ∧ (d.profile_picture_url = none → (mergeExisting d s3 now p).profile_picture_url = p.profile_picture_url))
    ∧ ((∀ v, d.follower_count = some v → (mergeExisting d s3 now p).follower_count = v)
      ∧ (d.follower_count = none → (mergeExisting d s3 now p).follower_count = p.follower_count))
    ∧ ((∀ v, d.url = some v → (mergeExisting d s3 now p).url = some v)
      ∧ (d.url = none → (mergeExisting d s3 now p).url = p.url))
    ∧ (mergeExisting d s3 now p).profile_picture_s3_url = s3
    ∧ (mergeExisting d s3 now p).last_scraped_at = some now := by
  refine ⟨⟨?_, ?_⟩, ⟨?_, ?_⟩, ⟨?_, ?_⟩, ⟨?_, ?_⟩, ⟨?_, ?_⟩, ⟨?_, ?_⟩, ⟨?_, ?_⟩, ⟨?_, ?_⟩,
    ⟨?_, ?_⟩, ⟨?_, ?_⟩, ⟨?_, ?_⟩, ⟨?_, ?_⟩, ⟨?_, ?_⟩, ⟨?_, ?_⟩, ⟨?_, ?_⟩, rfl, rfl⟩ <;>
    first
      | (intro v hv; simp [mergeExisting, applyPageData, mergeField, hv])
      | (intro hv; simp [mergeExisting, applyPageData, mergeField, hv])

/-- Record updating only the name, for the C3 witness. -/
def pageDataNameOnly : PageData :=
  { pageDataAllNone with name := some "Acme Corp" }

/-- Merge target for the C3 witness. -/
def sampleMergeTarget : Page :=
  { samplePage 0 "acme" with industry := some "Software" }

/-- Witness for C3 (amended) on a concrete merge: the supplied name
overwrites, the absent industry is retained, the clone result replaces
the cloned-picture field, and the sync time is recorded. -/
theorem merge_field_semantics_witness :
    (mergeExisting pageDataNameOnly (some "https://s3.example/n.jpg") 9 sampleMergeTarget).name
      = some "Acme Corp"
    ∧ (mergeExisting pageDataNameOnly (some "https://s3.example/n.jpg") 9 sampleMergeTarget).industry
      = some "Software"
    ∧ (mergeExisting pageDataNameOnly (some "https://s3.example/n.jpg") 9
        sampleMergeTarget).profile_picture_s3_url = some "https://s3.example/n.jpg"
    ∧ (mergeExisting pageDataNameOnly (some "https://s3.example/n.jpg") 9
        sampleMergeTarget).last_scraped_at = some 9 := by
  have h := merge_field_semantics pageDataNameOnly sampleMergeTarget
    (some "https://s3.example/n.jpg") 9
  refine ⟨h.2.1.1 "Acme Corp" rfl, ?_, h.2.2.2.2.2.2.2.2.2.2.2.2.2.2.2.1,
    h.2.2.2.2.2.2.2.2.2.2.2.2.2.2.2.2⟩
  exact (h.2.2.2.2.2.1.2 rfl).trans rfl

/-! ## C2 and C9: forced-refresh cache invalidation -/

theorem strContains_of_infix {s sub : String} (h : sub.data <:+: s.data) :
    strContains s sub = true := by
  simpa [strContains] using h

theorem strContains_append_left (pre sub : String) :
    strContains (pre ++ sub) sub = true := by
  apply strContains_of_infix
  rw [String.data_append]
  exact (List.suffix_append pre.data sub.data).isInfix

/-- After clearing the star pattern of pid, reading any key containing pid
yields absent (whether or not the client is connected). -/
theorem get_after_clear_pattern_star (c : RedisClient) (pid key : String)
    (h : strContains key pid = true) :
    ((c.clear_pattern_star pid).1).get key = none := by
  rcases c with ⟨_ | db⟩
  · rfl
  · show RedisClient.get ⟨some (db.filter (fun kv => !(strContains kv.1 pid)))⟩ key = none
    have hfind : (db.filter (fun kv => !(strContains kv.1 pid))).find? (fun kv => kv.1 == key)
        = none := by
      rw [List.find?_eq_none]
      intro kv hkv hbeq
      have h1 : (!(strContains kv.1 pid)) = true := (List.mem_filter.mp hkv).2
      have h2 : kv.1 = key := by simpa using hbeq
      rw [h2, h] at h1
      simp at h1
    simp [RedisClient.get, RedisDb.lookup, hfind]

/-- C2: a forced refresh first clears every cache key matching the page
identifier pattern, and only then fetches; hence when the upstream fetch
fails, the composed-response entry `page_detail:` ++ pid is absent from
the cache afterwards, the operation reports not-found, and the entity
store is left unchanged. -/
theorem refresh_failure_no_stale_cache (env : Env) (pid : String) (c : RedisClient) (s : Store)
    (hfail : env.fetchPage pid = none) :
    ((refreshPage env pid c s).1).get (RedisClient.cache_key "page_detail" [pid]) = none
    ∧ (refreshPage env pid c s).2.2 = none
    ∧ (refreshPage env pid c s).2.1 = s := by
  have hkey : RedisClient.cache_key "page_detail" [pid] = "page_detail:" ++ pid := rfl
  refine ⟨?_, ?_, ?_⟩
  · show ((c.clear_pattern_star pid).1).get (RedisClient.cache_key "page_detail" [pid]) = none
    rw [hkey]
    exact get_after_clear_pattern_star c pid _ (strContains_append_left "page_detail:" pid)
  · show (fetchAndStorePage env pid true s).2 = none
    unfold fetchAndStorePage
    cases hf : s.findPage pid <;> simp [hfail]
  · show (fetchAndStorePage env pid true s).1 = s
    unfold fetchAndStorePage
    cases hf : s.findPage pid <;> simp [hfail]

/-- Cache holding a composed response for acme, for the C2 witness. -/
def cacheWithAcmeDetail : RedisClient :=
  ⟨some [("page_detail:acme", "stale-response")]⟩

/-- Environment whose upstream always fails. -/
def envFetchFails : Env :=
  { fetchPage := fun _ => none
    fetchPosts := fun _ => []
    fetchEmployees := fun _ => []
    uploadFromUrl := fun _ _ => none
    now := 7 }

/-- Witness for C2: the stale acme entry is served before the refresh,
and after a refresh whose upstream fetch fails it is gone, the result is
not-found and the store is untouched. -/
theorem refresh_failure_no_stale_cache_witness :
    cacheWithAcmeDetail.get (RedisClient.cache_key "page_detail" ["acme"]) = some "stale-response"
    ∧ (((refreshPage envFetchFails "acme" cacheWithAcmeDetail sampleStore).1).get
        (RedisClient.cache_key "page_detail" ["acme"]) = none
      ∧ (refreshPage envFetchFails "acme" cacheWithAcmeDetail sampleStore).2.2 = none
      ∧ (refreshPage envFetchFails "acme" cacheWithAcmeDetail sampleStore).2.1 = sampleStore) :=
  ⟨by decide, refresh_failure_no_stale_cache envFetchFails "acme" cacheWithAcmeDetail sampleStore rfl⟩

/-- C9: the star pattern used by forced refresh deletes every cache key
containing the refreshed identifier as a substring; so refreshing an
identifier that is a substring of another identifier also deletes the
other page's composed-response entry. -/
theorem refresh_deletes_substring_neighbors (env : Env) (p1 p2 : String) (c : RedisClient)
    (s : Store) (h : strContains p2 p1 = true) :
    ((refreshPage env p1 c s).1).get (RedisClient.cache_key "page_detail" [p2]) = none := by
  show ((c.clear_pattern_star p1).1).get (RedisClient.cache_key "page_detail" [p2]) = none
  apply get_after_clear_pattern_star
  have h1 : p1.data <:+: p2.data := by simpa [strContains] using h
  have h2 : p2.data <:+: ("page_detail:" ++ p2).data := by
    rw [String.data_append]
    exact (List.suffix_append _ _).isInfix
  have hkey : RedisClient.cache_key "page_detail" [p2] = "page_detail:" ++ p2 := rfl
  rw [hkey]
  exact strContains_of_infix (h1.trans h2)

/-- Cache holding composed responses for both acme and acme-corp. -/
def cacheTwoPages : RedisClient :=
  ⟨some [("page_detail:acme", "acme-response"), ("page_detail:acme-corp", "corp-response")]⟩

/-- Witness for C9: acme and acme-corp are distinct identifiers, one a
substring of the other; the acme-corp entry is cached, and refreshing
acme deletes it as collateral. -/
theorem refresh_deletes_substring_neighbors_witness :
    ("acme" ≠ "acme-corp"
      ∧ cacheTwoPages.get (RedisClient.cache_key "page_detail" ["acme-corp"]) = some "corp-response")
    ∧ ((refreshPage envFetchFails "acme" cacheTwoPages sampleStore).1).get
        (RedisClient.cache_key "page_detail" ["acme-corp"]) = none :=
  ⟨⟨by decide, by decide⟩,
   refresh_deletes_substring_neighbors envFetchFails "acme" "acme-corp" cacheTwoPages sampleStore
     (by decide)⟩

/-! ## C4: the child cascade runs only on first creation -/

/-- C4: when a page with the requested identifier already exists in the
store, the pipeline (with or without force refresh) leaves the stored
Post and Employee collections untouched: the cascade into posts and
employees runs only on first creation of a page. -/
theorem refresh_existing_preserves_children (env : Env) (pid : String) (force_update : Bool)
    (s : Store) (q : Page) (h : s.findPage pid = some q) :
    (fetchAndStorePage env pid force_update s).1.posts = s.posts
    ∧ (fetchAndStorePage env pid force_update s).1.employees = s.employees := by
  unfold fetchAndStorePage
  rw [h]
  cases force_update
  · simp
  · cases henv : env.fetchPage pid <;> simp

/-- Normalized post payload for witnesses. -/
def samplePostData : PostData :=
  { post_id := some "post-1"
    text := some "launch"
    content_type := some "text"
    media_url := some "https://cdn.example/m1.png"
    media_type := some "image"
    posted_at := some 3
    like_count := some 4
    comment_count := some 1
    share_count := some 0
    hashtags := some ["launch"]
    mentions := some [] }

/-- Normalized employee payload for witnesses. -/
def sampleEmpData : EmpData :=
  { linkedin_id := some "emp-1"
    first_name := some "Grace"
    last_name := some "H"
    headline := some "Engineer"
    profile_url := some "https://cdn.example/in/grace"
    profile_picture_url := some "https://cdn.example/grace.png"
    location := some "NYC"
    industry := some "Software" }

/-- Normalized organization payload whose vanity name matches acme. -/
def samplePageData : PageData :=
  { linkedin_id := some "li-acme"
    name := some "Acme Corp"
    page_id := some "acme"
    description := some "We make anvils"
    website := some "https://acme.example"
    industry := some "Manufacturing"
    company_size := some "11-50"
    headquarters := some "Tucson, USA"
    founded_year := some 1949
    company_type := some "PRIVATELY_HELD"
    specialties := some ["anvils"]
    locations := some ["Tucson"]
    profile_picture_url := some "https://cdn.example/acme.png"
    follower_count := some 5000
    url := some "https://www.linkedin.com/company/acme" }

/-- Environment that returns the acme payload with one post and one
employee available upstream, and a deterministic uploader. -/
def envAcme : Env :=
  { fetchPage := fun pid => if pid = "acme" then some samplePageData else none
    fetchPosts := fun _ => [samplePostData]
    fetchEmployees := fun _ => [sampleEmpData]
    uploadFromUrl := fun u folder => some ("https://bucket.s3.region.amazonaws.com/" ++ folder ++ "/" ++ u)
    now := 42 }

/-- Witness for C4: acme already exists in the sample store, upstream has
a post and an employee available, yet a forced refresh adds neither. -/
theorem refresh_existing_preserves_children_witness :
    ((fetchAndStorePage envAcme "acme" true sampleStore).1.posts = sampleStore.posts
      ∧ (fetchAndStorePage envAcme "acme" true sampleStore).1.employees = sampleStore.employees)
    ∧ (envAcme.fetchPosts (some "li-acme")).length = 1
    ∧ (envAcme.fetchEmployees (some "li-acme")).length = 1
    ∧ (fetchAndStorePage envAcme "acme" true sampleStore).1.posts = [] :=
  ⟨refresh_existing_preserves_children envAcme "acme" true sampleStore (samplePage 0 "acme") rfl,
   by decide, by decide, by decide⟩

/-! ## C1: idempotence of the fetch-and-store pipeline -/

theorem fetchAndStorePosts_pages (env : Env) (pg : Page) (s : Store) :
    (fetchAndStorePosts env pg s).pages = s.pages := by
  unfold fetchAndStorePosts
  generalize env.fetchPosts pg.linkedin_id = l
  induction l generalizing s with
  | nil => rfl
  | cons d l ih => exact (ih _).trans rfl

theorem fetchAndStoreEmployees_pages (env : Env) (pg : Page) (s : Store) :
    (fetchAndStoreEmployees env pg s).pages = s.pages := by
  unfold fetchAndStoreEmployees
  generalize env.fetchEmployees pg.linkedin_id = l
  induction l generalizing s with
  | nil => rfl
  | cons d l ih => exact (ih _).trans rfl

theorem mergeExisting_absorb (d : PageData) (s3 : Option String) (now : Nat) (p : Page) :
    mergeExisting d s3 now (mergeExisting d s3 now p) = mergeExisting d s3 now p := by
  cases hpid : d.page_id <;> cases hfc : d.follower_count <;>
    simp [mergeExisting, applyPageData, mergeField_absorb, hpid, hfc]

theorem mergeExisting_fresh (d : PageData) (s3 : Option String) (now : Nat) (slug : String)
    (rowId : Nat) (h : d.page_id = none ∨ d.page_id = some slug) :
    mergeExisting d s3 now (newPageFromData slug d s3 now rowId)
      = newPageFromData slug d s3 now rowId := by
  rcases h with h | h <;> cases hfc : d.follower_count <;>
    simp [mergeExisting, applyPageData, newPageFromData, mergeField_self, h, hfc]

theorem find?_updateRow {l : List Page} {P : Page → Bool} {e u : Page}
    (hf : l.find? P = some e) (hu : P u = true) :
    (updateRow l e.id u).find? P = some u := by
  unfold updateRow
  induction l with
  | nil => simp at hf
  | cons a l ih =>
    cases hPa : P a with
    | true =>
      rw [List.find?_cons_of_pos _ hPa] at hf
      have ha : a = e := by injection hf
      subst ha
      simp only [List.map_cons, beq_self_eq_true, if_pos]
      exact List.find?_cons_of_pos _ hu
    | false =>
      rw [List.find?_cons_of_neg _ (by simp [hPa])] at hf
      simp only [List.map_cons]
      cases hid : (a.id == e.id) with
      | true =>
        simp only [if_pos hid]
        exact List.find?_cons_of_pos _ hu
      | false =>
        simp only [hid, Bool.false_eq_true, if_false]
        rw [List.find?_cons_of_neg _ (by simp [hPa])]
        exact ih hf

theorem updateRow_updateRow_self (l : List Page) (rid : Nat) (u : Page) (hid : u.id = rid) :
    updateRow (updateRow l rid u) rid u = updateRow l rid u := by
  unfold updateRow
  rw [List.map_map]
  apply List.map_congr_left
  intro q _
  cases h : (q.id == rid) with
  | true => simp [Function.comp, h, hid]
  | false => simp [Function.comp, h]

theorem updateRow_append_fresh (l : List Page) (P0 : Page) (h : ∀ p ∈ l, p.id ≠ P0.id) :
    updateRow (l ++ [P0]) P0.id P0 = l ++ [P0] := by
  unfold updateRow
  have hcongr : ∀ q ∈ l ++ [P0], (if q.id == P0.id then P0 else q) = id q := by
    intro q hq
    rcases List.mem_append.mp hq with h1 | h2
    · simp [h q h1]
    · have : q = P0 := by simpa using h2
      subst this
      simp
  rw [List.map_congr_left hcongr, List.map_id]


theorem fasp_existing_noforce (env : Env) (pid : String) (s : Store) (e : Page)
    (hfind : s.findPage pid = some e) :
    fetchAndStorePage env pid false s = (s, some e) := by
  simp [fetchAndStorePage, hfind]

theorem fasp_existing_fetchfail (env : Env) (pid : String) (s : Store) (e : Page)
    (hfind : s.findPage pid = some e) (hfetch : env.fetchPage pid = none) :
    fetchAndStorePage env pid true s = (s, none) := by
  simp [fetchAndStorePage, hfind, hfetch]

theorem fasp_absent_fetchfail (env : Env) (pid : String) (force : Bool) (s : Store)
    (hfind : s.findPage pid = none) (hfetch : env.fetchPage pid = none) :
    fetchAndStorePage env pid force s = (s, none) := by
  simp [fetchAndStorePage, hfind, hfetch]

theorem fasp_merge_unfold (env : Env) (pid : String) (s : Store) (e : Page) (d : PageData)
    (hfind : s.findPage pid = some e) (hfetch : env.fetchPage pid = some d) :
    fetchAndStorePage env pid true s
      = ({ s with
            pages := updateRow s.pages e.id
              (mergeExisting d (cloneMediaPage env d.profile_picture_url pid) env.now e) },
         some (mergeExisting d (cloneMediaPage env d.profile_picture_url pid) env.now e)) := by
  simp [fetchAndStorePage, hfind, hfetch]

theorem fasp_create_unfold (env : Env) (pid : String) (force : Bool) (s : Store) (d : PageData)
    (hfind : s.findPage pid = none) (hfetch : env.fetchPage pid = some d) :
    fetchAndStorePage env pid force s
      = (fetchAndStoreEmployees env
          (newPageFromData pid d (cloneMediaPage env d.profile_picture_url pid)
            env.now s.nextPageId)
          (fetchAndStorePosts env
            (newPageFromData pid d (cloneMediaPage env d.profile_picture_url pid)
              env.now s.nextPageId)
            { s with
                pages := s.pages ++ [newPageFromData pid d
                  (cloneMediaPage env d.profile_picture_url pid) env.now s.nextPageId]
                nextPageId := s.nextPageId + 1 }),
         some (newPageFromData pid d (cloneMediaPage env d.profile_picture_url pid)
            env.now s.nextPageId)) := by
  simp [fetchAndStorePage, hfind, hfetch]

theorem fasp_on_updated (env : Env) (pid : String) (s : Store) (e u : Page) (d : PageData)
    (hfind : s.findPage pid = some e)
    (hfetch : env.fetchPage pid = some d)
    (huid : u.id = e.id)
    (huP : (u.page_id == pid) = true)
    (habs : mergeExisting d (cloneMediaPage env d.profile_picture_url pid) env.now u = u) :
    fetchAndStorePage env pid true { s with pages := updateRow s.pages e.id u }
      = ({ s with pages := updateRow s.pages e.id u }, some u) := by
  have h2 : Store.findPage { s with pages := updateRow s.pages e.id u } pid = some u := by
    unfold Store.findPage at hfind ⊢
    exact find?_updateRow hfind huP
  simp only [fetchAndStorePage, h2, hfetch, Bool.not_true, Bool.false_eq_true, if_false]
  rw [habs, huid, updateRow_updateRow_self s.pages e.id u huid]

theorem fasp_on_created (env : Env) (pid : String) (force : Bool) (s : Store) (P0 : Page)
    (d : PageData)
    (hfind : s.findPage pid = none)
    (hfetch : env.fetchPage pid = some d)
    (hmerge : mergeExisting d (cloneMediaPage env d.profile_picture_url pid) env.now P0 = P0)
    (hP0pid : (P0.page_id == pid) = true)
    (hP0id : ∀ p ∈ s.pages, p.id ≠ P0.id) :
    fetchAndStorePage env pid force
        (fetchAndStoreEmployees env P0 (fetchAndStorePosts env P0
          { s with pages := s.pages ++ [P0], nextPageId := s.nextPageId + 1 }))
      = (fetchAndStoreEmployees env P0 (fetchAndStorePosts env P0
          { s with pages := s.pages ++ [P0], nextPageId := s.nextPageId + 1 }), some P0) := by
  have hpages : (fetchAndStoreEmployees env P0 (fetchAndStorePosts env P0
      { s with pages := s.pages ++ [P0], nextPageId := s.nextPageId + 1 })).pages
      = s.pages ++ [P0] := by
    rw [fetchAndStoreEmployees_pages, fetchAndStorePosts_pages]
  have h2 : Store.findPage (fetchAndStoreEmployees env P0 (fetchAndStorePosts env P0
      { s with pages := s.pages ++ [P0], nextPageId := s.nextPageId + 1 })) pid
      = some P0 := by
    unfold Store.findPage at hfind ⊢
    rw [hpages, List.find?_append, hfind]
    simp [hP0pid]
  cases force with
  | false => simp [fetchAndStorePage, h2]
  | true =>
    simp only [fetchAndStorePage, h2, hfetch, Bool.not_true, Bool.false_eq_true, if_false]
    rw [hmerge]
    have h5 : updateRow (fetchAndStoreEmployees env P0 (fetchAndStorePosts env P0
        { s with pages := s.pages ++ [P0], nextPageId := s.nextPageId + 1 })).pages P0.id P0
        = (fetchAndStoreEmployees env P0 (fetchAndStorePosts env P0
          { s with pages := s.pages ++ [P0], nextPageId := s.nextPageId + 1 })).pages := by
      rw [hpages]
      exact updateRow_append_fresh s.pages P0 hP0id
    rw [h5]

/-- C1 (amended): the fetch-and-store pipeline, cascaded child stores
included, is idempotent on the entity store — running it twice with the
same upstream data, uploader and clock leaves exactly the stored state of
one run, with no duplicate rows — provided the incoming normalized
record's vanity name (its page_id key) is absent or equal to the
requested identifier, on any store satisfying the autoincrement
invariant. -/
theorem upsert_pipeline_idempotent (env : Env) (page_id : String) (force_update : Bool) (s : Store)
    (hd : ∀ d, env.fetchPage page_id = some d → d.page_id = none ∨ d.page_id = some page_id)
    (hids : ∀ p ∈ s.pages, p.id < s.nextPageId) :
    (fetchAndStorePage env page_id force_update
        (fetchAndStorePage env page_id force_update s).1).1
      = (fetchAndStorePage env page_id force_update s).1 := by
  cases hfind : s.findPage page_id with
  | some existing =>
    cases force_update with
    | false =>
      rw [fasp_existing_noforce env page_id s existing hfind]
      rw [fasp_existing_noforce env page_id s existing hfind]
    | true =>
      cases hfetch : env.fetchPage page_id with
      | none =>
        rw [fasp_existing_fetchfail env page_id s existing hfind hfetch]
        rw [fasp_existing_fetchfail env page_id s existing hfind hfetch]
      | some d =>
        have hexP : (existing.page_id == page_id) = true := by
          have h := hfind
          unfold Store.findPage at h
          simpa using List.find?_some h
        have huP : ((mergeExisting d (cloneMediaPage env d.profile_picture_url page_id)
            env.now existing).page_id == page_id) = true := by
          rcases hd d hfetch with hn | hs
          · simpa [mergeExisting, applyPageData, hn] using hexP
          · simp [mergeExisting, applyPageData, hs]
        rw [fasp_merge_unfold env page_id s existing d hfind hfetch]
        rw [fasp_on_updated env page_id s existing
          (mergeExisting d (cloneMediaPage env d.profile_picture_url page_id) env.now existing)
          d hfind hfetch rfl huP
          (mergeExisting_absorb d (cloneMediaPage env d.profile_picture_url page_id)
            env.now existing)]
  | none =>
    cases hfetch : env.fetchPage page_id with
    | none =>
      rw [fasp_absent_fetchfail env page_id force_update s hfind hfetch]
      rw [fasp_absent_fetchfail env page_id force_update s hfind hfetch]
    | some d =>
      have hP0pid : ((newPageFromData page_id d
          (cloneMediaPage env d.profile_picture_url page_id)
          env.now s.nextPageId).page_id == page_id) = true := by
        simp [newPageFromData]
      have hP0id : ∀ p ∈ s.pages, p.id ≠ (newPageFromData page_id d
          (cloneMediaPage env d.profile_picture_url page_id) env.now s.nextPageId).id :=
        fun p hp => Nat.ne_of_lt (hids p hp)
      rw [fasp_create_unfold env page_id force_update s d hfind hfetch]
      rw [fasp_on_created env page_id force_update s
        (newPageFromData page_id d (cloneMediaPage env d.profile_picture_url page_id)
          env.now s.nextPageId)
        d hfind hfetch
        (mergeExisting_fresh d (cloneMediaPage env d.profile_picture_url page_id)
          env.now page_id s.nextPageId (hd d hfetch))
        hP0pid hP0id]

/-- Empty entity store. -/
def emptyStore : Store :=
  { pages := []
    posts := []
    employees := []
    nextPageId := 0
    nextPostId := 0
    nextEmployeeId := 0 }

/-- Acme payload whose provider-reported vanity name differs from the
requested slug (for example a case-normalized vanity name). -/
def pageDataMismatch : PageData :=
  { samplePageData with page_id := some "acme-inc" }

/-- Environment returning the mismatched payload for acme. -/
def envMismatch : Env :=
  { envAcme with fetchPage := fun pid => if pid = "acme" then some pageDataMismatch else none }

/-- Counterexample to C1 as stated: against an upstream whose normalized
record carries vanity name acme-inc for the requested slug acme, one
forced-refresh run of the pipeline on the empty store leaves a page whose
stored page_id is acme, while a second identical run merges the incoming
page_id over it and leaves acme-inc — the stored state after two
applications differs from the state after one. -/
theorem upsert_pipeline_idempotent_counterexample :
    ((fetchAndStorePage envMismatch "acme" true emptyStore).1.pages.map
        (fun p => p.page_id) = ["acme"])
    ∧ ((fetchAndStorePage envMismatch "acme" true
          (fetchAndStorePage envMismatch "acme" true emptyStore).1).1.pages.map
        (fun p => p.page_id) = ["acme-inc"])
    ∧ (fetchAndStorePage envMismatch "acme" true
          (fetchAndStorePage envMismatch "acme" true emptyStore).1).1
        ≠ (fetchAndStorePage envMismatch "acme" true emptyStore).1 := by
  refine ⟨by decide, by decide, by decide⟩

/-- Witness for C1 (amended): a forced-refresh pipeline run for acme
against an upstream whose record carries the matching vanity name, with a
post and an employee cascaded on creation, applied twice to the empty
store, equals one application. -/
theorem upsert_pipeline_idempotent_witness :
    (fetchAndStorePage envAcme "acme" true
        (fetchAndStorePage envAcme "acme" true emptyStore).1).1
      = (fetchAndStorePage envAcme "acme" true emptyStore).1 :=
  upsert_pipeline_idempotent envAcme "acme" true emptyStore
    (fun d h => by
      have h2 : envAcme.fetchPage "acme" = some samplePageData := rfl
      rw [h2] at h
      injection h with h3
      right
      rw [← h3]
      rfl)
    (fun p hp => by simp [emptyStore] at hp)
